import Mathlib

/-!
Verification development for the Storefront REST facade.

The routes under `src/app/api` are JavaScript/TypeScript functions over JSON
values.  We shallowly embed the JavaScript value universe as `JsVal` (numbers
are modelled as integers or NaN: every numeric input the routes manipulate is
integral), and embed each route handler as a total Lean function.  External
collaborators (the GraphQL transport `storefrontRequest`, `JSON.parse` of the
request body, `decodeURIComponent`) are passed in as parameters or as
already-decoded outcomes, exactly at the points where the source calls them.
-/

/-- JavaScript number restricted to the values the routes produce: NaN or an
integer.  (`parseInt`/`Math.min` on the routes' inputs never yield a
non-integral finite value.) -/
inductive JsNum where
  | nan
  | int (i : Int)
deriving DecidableEq, Repr

/-- JavaScript/JSON value universe: `undefined`, `null`, booleans, numbers,
strings, arrays and objects (ordered field lists, first binding wins as in a
JS object literal with distinct keys). -/
inductive JsVal where
  | undef
  | null
  | bool (b : Bool)
  | num (n : JsNum)
  | str (s : String)
  | arr (elems : List JsVal)
  | obj (fields : List (String × JsVal))

/-- Field lookup in an object field list (property access on a JS object). -/
def lookupField : List (String × JsVal) → String → JsVal
  | [], _ => JsVal.undef
  | (k2, v) :: fs, k => if k2 = k then v else lookupField fs k

/-- Property access `v.k` / optional chain `v?.k`: `undefined` on anything
that is not an object with the key (the handlers only dereference plain data
objects, where `.k` and `?.k` agree). -/
def jsGet (v : JsVal) (k : String) : JsVal :=
  match v with
  | JsVal.obj fs => lookupField fs k
  | _ => JsVal.undef

/-- Index access `v[0]` as the handlers use it: first array element, object
property "0", or first character of a string. -/
def jsIdx0 : JsVal → JsVal
  | JsVal.arr [] => JsVal.undef
  | JsVal.arr (x :: _) => x
  | JsVal.obj fs => lookupField fs "0"
  | JsVal.str s => if s.isEmpty then JsVal.undef else JsVal.str (s.take 1)
  | _ => JsVal.undef

/-- JavaScript truthiness. -/
def truthy : JsVal → Bool
  | JsVal.undef => false
  | JsVal.null => false
  | JsVal.bool b => b
  | JsVal.num JsNum.nan => false
  | JsVal.num (JsNum.int i) => decide (i ≠ 0)
  | JsVal.str s => !s.isEmpty
  | JsVal.arr _ => true
  | JsVal.obj _ => true

/-- JavaScript `a || b`. -/
def jsOr (a b : JsVal) : JsVal := if truthy a then a else b

/-- JavaScript `a ?? b` (nullish coalescing). -/
def nullish (a b : JsVal) : JsVal :=
  match a with
  | JsVal.undef => b
  | JsVal.null => b
  | _ => a

/-- `searchParams.get(k)`: `null` when the parameter is absent. -/
def optStrVal : Option String → JsVal
  | some s => JsVal.str s
  | none => JsVal.null

/-- Cast to a plain list: JS `.map` is only reached on actual arrays. -/
def asArr : JsVal → List JsVal
  | JsVal.arr xs => xs
  | _ => []

/-- Leading decimal digits of a character list, `none` when the first
character is not a digit (the tail after the digit prefix is discarded,
as in `parseInt`). -/
def leadDigits : List Char → Option Nat → Option Nat
  | [], acc => acc
  | c :: cs, acc =>
    if c.isDigit then leadDigits cs (some ((acc.getD 0) * 10 + (c.toNat - 48)))
    else acc

/-- Model of JS `parseInt` (radix 10): skip leading whitespace, optional
sign, then the maximal digit prefix; NaN when no digit is found. -/
def parseIntStr (s : String) : JsNum :=
  match s.toList.dropWhile Char.isWhitespace with
  | '-' :: rest =>
    match leadDigits rest none with
    | some n => JsNum.int (-(n : Int))
    | none => JsNum.nan
  | '+' :: rest =>
    match leadDigits rest none with
    | some n => JsNum.int (n : Int)
    | none => JsNum.nan
  | cs =>
    match leadDigits cs none with
    | some n => JsNum.int (n : Int)
    | none => JsNum.nan

/-- All-digit parse used by `Number(...)`: the whole (trimmed) string must be
a signed decimal numeral.  (Fractional literals are outside the integral
model; none of the routes' numeric inputs are fractional.) -/
def allDigits : List Char → Option Nat → Option Nat
  | [], acc => acc
  | c :: cs, acc =>
    if c.isDigit then allDigits cs (some ((acc.getD 0) * 10 + (c.toNat - 48)))
    else none

/-- Model of JS `String.prototype.trim` (strip leading and trailing
whitespace), structural over the character list. -/
def jsTrim (s : String) : String :=
  String.mk (((s.toList.dropWhile Char.isWhitespace).reverse.dropWhile
    Char.isWhitespace).reverse)

/-- String-to-number part of JS `Number(...)`. -/
def strToNum (s : String) : JsNum :=
  let t := jsTrim s
  if t.isEmpty then JsNum.int 0
  else
    match t.toList with
    | '-' :: rest =>
      match allDigits rest none with
      | some n => JsNum.int (-(n : Int))
      | none => JsNum.nan
    | '+' :: rest =>
      match allDigits rest none with
      | some n => JsNum.int (n : Int)
      | none => JsNum.nan
    | cs =>
      match allDigits cs none with
      | some n => JsNum.int (n : Int)
      | none => JsNum.nan

mutual

/-- Model of JS `String(...)` / `.toString()` on the embedded values. -/
def jsToString : JsVal → String
  | JsVal.undef => "undefined"
  | JsVal.null => "null"
  | JsVal.bool true => "true"
  | JsVal.bool false => "false"
  | JsVal.num JsNum.nan => "NaN"
  | JsVal.num (JsNum.int i) => toString i
  | JsVal.str s => s
  | JsVal.arr xs => String.intercalate "," (jsToStringList xs)
  | JsVal.obj _ => "[object Object]"

def jsToStringList : List JsVal → List String
  | [] => []
  | x :: xs => jsToString x :: jsToStringList xs

end

/-- Model of JS `Number(...)`. -/
def jsNumber : JsVal → JsNum
  | JsVal.undef => JsNum.nan
  | JsVal.null => JsNum.int 0
  | JsVal.bool b => JsNum.int (if b then 1 else 0)
  | JsVal.num n => n
  | JsVal.str s => strToNum s
  | JsVal.arr xs => strToNum (jsToString (JsVal.arr xs))
  | JsVal.obj fs => strToNum (jsToString (JsVal.obj fs))

/-- `Math.min(a, b)`: NaN-absorbing minimum. -/
def jsMathMin (a b : JsNum) : JsNum :=
  match a, b with
  | JsNum.nan, _ => JsNum.nan
  | _, JsNum.nan => JsNum.nan
  | JsNum.int x, JsNum.int y => JsNum.int (min x y)

/-- JS relational `v > k` (ToNumber coercion; false on NaN). -/
def jsNumGt (v : JsVal) (k : Int) : Bool :=
  match jsNumber v with
  | JsNum.nan => false
  | JsNum.int i => decide (k < i)

/-- JS relational `v <= k` (ToNumber coercion; false on NaN). -/
def jsNumLe (v : JsVal) (k : Int) : Bool :=
  match jsNumber v with
  | JsNum.nan => false
  | JsNum.int i => decide (i ≤ k)

/-- JS strict equality `v === k` against a number literal. -/
def jsStrictEqInt (v : JsVal) (k : Int) : Bool :=
  match v with
  | JsVal.num (JsNum.int i) => decide (i = k)
  | _ => false

/-! ### JSON string/ID helpers shared by the routes -/

/-- Character-list prefix test (model of `String.prototype.startsWith`). -/
def leadsWith : List Char → List Char → Bool
  | [], _ => true
  | _ :: _, [] => false
  | a :: as2, b :: bs => (a == b) && leadsWith as2 bs

/-- Model of JS `s.startsWith(pre)`. -/
def strStartsWith (s pre : String) : Bool := leadsWith pre.toList s.toList

/-- `src/app/api/inventory/check/route.ts`, lines 30-32: normalize a variant
ID to the Shopify global-ID form. -/
def formatVariantId (id : String) : String :=
  if strStartsWith id "gid://" then id else "gid://shopify/ProductVariant/" ++ id

/-- `app/api/products/[id]/route.ts` (part_002), lines 19-23: normalize a
product ID to the Shopify global-ID form. -/
def formatProductId (productId : String) : String :=
  if strStartsWith productId "gid://" then productId
  else "gid://shopify/Product/" ++ productId

/-! ### HTTP-level model -/

/-- An HTTP response: status code plus the JSON body passed to
`NextResponse.json` (CORS headers are external plumbing, not modelled). -/
structure HttpResponse where
  status : Nat
  body : JsVal

/-- Outcome of reading the request body: empty, text that fails `JSON.parse`,
or a parsed JSON value.  (`JSON.parse` itself is the external collaborator;
the routes only branch on this outcome.) -/
inductive BodyOutcome where
  | empty
  | malformed (raw : String)
  | json (v : JsVal)

/-- The `bodyJson` variable of the search GET handler: non-null only when the
body parsed as JSON (route.ts lines 74-137). -/
def bodyJsonOf : BodyOutcome → Option JsVal
  | BodyOutcome.json v => some v
  | _ => none

/-- The tool-call error envelope shared by all VAPI-convention responses:
`\x7bresults: [\x7btoolCallId, result\x7d]\x7d`. -/
def mkEnvelope (toolCallId result : JsVal) : JsVal :=
  JsVal.obj [("results",
    JsVal.arr [JsVal.obj [("toolCallId", toolCallId), ("result", result)]])]

/-- A plain `\x7berror: msg\x7d` JSON body. -/
def errObj (msg : String) : JsVal := JsVal.obj [("error", JsVal.str msg)]

/-! ### Search route: request normalization
(`src/app/api/inventory/search/route.ts` GET, lines 166-282; the same logic
appears in part_003 lines 49-107.) -/

/-- A GET request to the search route, after transport decoding: the body
outcome, the raw query parameters, and the `message` parameter
(`none` = absent; `some none` = present but `JSON.parse(decodeURIComponent(...))`
throws; `some (some v)` = decodes to `v`). -/
structure SearchGetRequest where
  body : BodyOutcome
  q : Option String
  query : Option String
  limit : Option String
  cursor : Option String
  message : Option (Option JsVal)

/-- `bodyJson?.message?.toolCallList?.[0]` (route.ts line 171). -/
def bodyToolCall (body : BodyOutcome) : JsVal :=
  match bodyJsonOf body with
  | some v => jsIdx0 (jsGet (jsGet v "message") "toolCallList")
  | none => JsVal.undef

/-- `toolCall.arguments || toolCall.function?.parameters || \x7b\x7d`
(route.ts line 175). -/
def extractArgs (toolCall : JsVal) : JsVal :=
  jsOr (jsGet toolCall "arguments")
    (jsOr (jsGet (jsGet toolCall "function") "parameters") (JsVal.obj []))

/-- The tool call extracted from the `message` query parameter (route.ts
lines 221-258): requires the parameter to be present, to parse, and
`decodedMessage.toolCallList && decodedMessage.toolCallList[0]` to be truthy;
returns `undefined` otherwise. -/
def messageToolCall : Option (Option JsVal) → JsVal
  | some (some decoded) =>
    if truthy (jsGet decoded "toolCallList") &&
       truthy (jsIdx0 (jsGet decoded "toolCallList")) then
      jsIdx0 (jsGet decoded "toolCallList")
    else JsVal.undef
  | _ => JsVal.undef

/-- `url.searchParams.get("q") || url.searchParams.get("query") || ""`
(route.ts lines 207-208). -/
def plainQuery (req : SearchGetRequest) : JsVal :=
  jsOr (optStrVal req.q) (jsOr (optStrVal req.query) (JsVal.str ""))

/-- The `vapiArgs` object built in the query-params fallback (route.ts lines
263-267): `\x7bq, limit: limit ? parseInt(limit) : undefined,
cursor: cursor || undefined\x7d`. -/
def plainArgs (req : SearchGetRequest) : JsVal :=
  JsVal.obj
    [("q", plainQuery req),
     ("limit",
       match req.limit with
       | some s => if s.isEmpty then JsVal.undef else JsVal.num (parseIntStr s)
       | none => JsVal.undef),
     ("cursor",
       match req.cursor with
       | some s => if s.isEmpty then JsVal.undef else JsVal.str s
       | none => JsVal.undef)]

/-- Result of shape detection: the correlation id (a JS value, `undefined`
when no envelope was seen) and the argument object. -/
structure Detected where
  toolCallId : JsVal
  vapiArgs : JsVal

/-- Shape detection of the search GET handler (route.ts lines 166-277):
JSON-body envelope, then — only while `toolCallId` is still falsy — the
`message` query-parameter envelope, then the plain query-params fallback. -/
def searchGetDetect (req : SearchGetRequest) : Detected :=
  let bc := bodyToolCall req.body
  let tc0 : JsVal := if truthy bc then jsGet bc "id" else JsVal.undef
  let args0 : JsVal := if truthy bc then extractArgs bc else JsVal.obj []
  if truthy tc0 then { toolCallId := tc0, vapiArgs := args0 }
  else
    let mc := messageToolCall req.message
    let tc1 : JsVal := if truthy mc then jsGet mc "id" else tc0
    let args1 : JsVal := if truthy mc then extractArgs mc else args0
    if !truthy tc1 &&
       (truthy (plainQuery req) || truthy (optStrVal req.limit) ||
        truthy (optStrVal req.cursor)) then
      { toolCallId := JsVal.str "query-params-fallback", vapiArgs := plainArgs req }
    else { toolCallId := tc1, vapiArgs := args1 }

/-- The variables of the downstream `PRODUCT_SEARCH_QUERY` GraphQL call:
`\x7bquery, first, after\x7d`. -/
structure SearchVars where
  query : JsVal
  first : JsNum
  after : JsVal

/-- Final parameter resolution of the search GET handler (route.ts lines
280-282): `finalQuery = vapiArgs.q || ""`,
`finalLimit = Math.min(parseInt(String(vapiArgs.limit ?? 5)), 50)`,
`finalCursor = vapiArgs.cursor || null`. -/
def searchGetFinalize (args : JsVal) : SearchVars :=
  { query := jsOr (jsGet args "q") (JsVal.str ""),
    first := jsMathMin
      (parseIntStr (jsToString (nullish (jsGet args "limit") (JsVal.num (JsNum.int 5)))))
      (JsNum.int 50),
    after := jsOr (jsGet args "cursor") JsVal.null }

/-- The variables the search GET handler passes to `storefrontRequest`
(route.ts lines 301-305). -/
def searchGetParams (req : SearchGetRequest) : SearchVars :=
  searchGetFinalize (searchGetDetect req).vapiArgs

/-! ### JSON serialization (`JSON.stringify`), used by the search GET
handler to pack `resultData` into the envelope as a string. -/

/-- Escape one character for a JSON string literal. -/
def jsonEscapeChar (c : Char) : String :=
  if c = '"' then "\\\""
  else if c = '\\' then "\\\\"
  else if c = '\n' then "\\n"
  else if c = '\t' then "\\t"
  else if c = '\r' then "\\r"
  else String.singleton c

/-- A JSON string literal. -/
def jsonQuote (s : String) : String :=
  "\"" ++ String.join (s.toList.map jsonEscapeChar) ++ "\""

mutual

/-- Model of `JSON.stringify` (`undefined` serializes as `null` in array
positions and is dropped from objects, as in JS). -/
def jsStringify : JsVal → String
  | JsVal.undef => "null"
  | JsVal.null => "null"
  | JsVal.bool true => "true"
  | JsVal.bool false => "false"
  | JsVal.num JsNum.nan => "null"
  | JsVal.num (JsNum.int i) => toString i
  | JsVal.str s => jsonQuote s
  | JsVal.arr xs => "[" ++ String.intercalate "," (jsStringifyList xs) ++ "]"
  | JsVal.obj fs => "\x7b" ++ String.intercalate "," (jsStringifyFields fs) ++ "\x7d"

def jsStringifyList : List JsVal → List String
  | [] => []
  | x :: xs => jsStringify x :: jsStringifyList xs

def jsStringifyFields : List (String × JsVal) → List String
  | [] => []
  | (_, JsVal.undef) :: fs => jsStringifyFields fs
  | (k, v) :: fs => (jsonQuote k ++ ":" ++ jsStringify v) :: jsStringifyFields fs

end

/-- End index of `Array.prototype.slice(0, n)` on a list of length `len`
(NaN coerces to 0, negative counts from the end). -/
def jsSliceEnd (len : Nat) : JsNum → Nat
  | JsNum.nan => 0
  | JsNum.int i => if i < 0 then ((len : Int) + i).toNat else min i.toNat len

/-- `xs.slice(0, n)`. -/
def jsSlice (xs : List JsVal) (n : JsNum) : List JsVal :=
  xs.take (jsSliceEnd xs.length n)

/-! ### Search route: response shaping and the full handlers -/

/-- Variant projection shared by the search handlers (GET route.ts lines
368-378, POST lines 663-678). -/
def variantEdgeProj (variantEdge : JsVal) : JsVal :=
  let variant := jsGet variantEdge "node"
  JsVal.obj
    [("id", jsGet variant "id"),
     ("title", jsGet variant "title"),
     ("sku", jsGet variant "sku"),
     ("price", jsGet (jsGet variant "price") "amount"),
     ("compareAtPrice", jsOr (jsGet (jsGet variant "compareAtPrice") "amount") JsVal.null),
     ("inventoryQuantity", jsGet variant "quantityAvailable"),
     ("availableForSale", jsGet variant "availableForSale"),
     ("options", jsGet variant "selectedOptions")]

/-- Image projection shared by the search handlers (`\x7burl, altText\x7d`). -/
def imageEdgeProj (imageEdge : JsVal) : JsVal :=
  let image := jsGet imageEdge "node"
  JsVal.obj [("url", jsGet image "url"), ("altText", jsGet image "altText")]

/-- `hasAvailableVariant` of the search GET transform (route.ts lines
351-354): some variant is `availableForSale` or has
`(quantityAvailable ?? 0) > 0`. -/
def hasAvailableVariant (node : JsVal) : Bool :=
  (asArr (jsGet (jsGet node "variants") "edges")).any fun ve =>
    truthy (jsGet (jsGet ve "node") "availableForSale") ||
    jsNumGt (nullish (jsGet (jsGet ve "node") "quantityAvailable") (JsVal.num (JsNum.int 0))) 0

/-- Product transform of the search GET handler (route.ts lines 347-386). -/
def getProductProj (edge : JsVal) : JsVal :=
  let node := jsGet edge "node"
  JsVal.obj
    [("id", jsGet node "id"),
     ("title", jsGet node "title"),
     ("handle", jsGet node "handle"),
     ("description", jsGet node "description"),
     ("productType", jsGet node "productType"),
     ("vendor", jsGet node "vendor"),
     ("priceRange", JsVal.obj
        [("min", jsGet (jsGet (jsGet node "priceRange") "minVariantPrice") "amount"),
         ("max", jsGet (jsGet (jsGet node "priceRange") "maxVariantPrice") "amount"),
         ("currency", jsGet (jsGet (jsGet node "priceRange") "minVariantPrice") "currencyCode")]),
     ("inStock", JsVal.bool (hasAvailableVariant node)),
     ("variants", JsVal.arr ((asArr (jsGet (jsGet node "variants") "edges")).map variantEdgeProj)),
     ("images", JsVal.arr ((asArr (jsGet (jsGet node "images") "edges")).map imageEdgeProj))]

/-- Inner variant projection of the GET `resultData` (route.ts lines 411-419). -/
def resultVariantProj (v : JsVal) : JsVal :=
  JsVal.obj
    [("id", jsGet v "id"),
     ("title", jsGet v "title"),
     ("sku", jsGet v "sku"),
     ("price", jsGet v "price"),
     ("compareAtPrice", jsGet v "compareAtPrice"),
     ("inventoryQuantity", jsGet v "inventoryQuantity"),
     ("availableForSale", jsGet v "availableForSale")]

/-- Per-product projection of the GET `resultData` (route.ts lines 400-420). -/
def resultProductProj (p : JsVal) : JsVal :=
  JsVal.obj
    [("id", jsGet p "id"),
     ("title", jsGet p "title"),
     ("description", jsOr (jsGet p "description") (JsVal.str "No description available")),
     ("handle", jsGet p "handle"),
     ("productType", jsGet p "productType"),
     ("vendor", jsGet p "vendor"),
     ("price", jsGet (jsGet p "priceRange") "min"),
     ("currency", jsGet (jsGet p "priceRange") "currency"),
     ("inStock", jsGet p "inStock"),
     ("imageUrl", jsOr (jsGet (jsIdx0 (jsGet p "images")) "url") JsVal.null),
     ("variants", JsVal.arr ((asArr (jsGet p "variants")).map resultVariantProj))]

/-- The search GET handler (route.ts lines 6-471, minus logging):
normalization, the single `storefrontRequest` call (`sf`), and the
always-VAPI response shaping.  The catch-all error path (lines 472-568) is
unreachable in the embedding, which is total. -/
def searchGET (req : SearchGetRequest) (sf : SearchVars → JsVal) : HttpResponse :=
  let d := searchGetDetect req
  let p := searchGetFinalize d.vapiArgs
  let response := sf p
  let products := jsGet (jsGet response "data") "products"
  if !truthy products then
    { status := 500,
      body := mkEnvelope (jsOr d.toolCallId (JsVal.str "unknown"))
        (JsVal.str (jsStringify (errObj "Failed to fetch products"))) }
  else
    let transformedProducts := (asArr (jsGet products "edges")).map getProductProj
    let resultData := JsVal.obj
      [("query", p.query),
       ("totalFound", JsVal.num (JsNum.int transformedProducts.length)),
       ("products", JsVal.arr ((jsSlice transformedProducts p.first).map resultProductProj))]
    { status := 200,
      body := mkEnvelope (jsOr d.toolCallId (JsVal.str "unknown"))
        (JsVal.str (jsStringify resultData)) }

/-- Product transform of the search POST handler (route.ts lines 655-685):
like the GET transform but without `inStock`. -/
def postProductProj (edge : JsVal) : JsVal :=
  let node := jsGet edge "node"
  JsVal.obj
    [("id", jsGet node "id"),
     ("title", jsGet node "title"),
     ("handle", jsGet node "handle"),
     ("description", jsGet node "description"),
     ("productType", jsGet node "productType"),
     ("vendor", jsGet node "vendor"),
     ("priceRange", JsVal.obj
        [("min", jsGet (jsGet (jsGet node "priceRange") "minVariantPrice") "amount"),
         ("max", jsGet (jsGet (jsGet node "priceRange") "maxVariantPrice") "amount"),
         ("currency", jsGet (jsGet (jsGet node "priceRange") "minVariantPrice") "currencyCode")]),
     ("variants", JsVal.arr ((asArr (jsGet (jsGet node "variants") "edges")).map variantEdgeProj)),
     ("images", JsVal.arr ((asArr (jsGet (jsGet node "images") "edges")).map imageEdgeProj))]

/-- `Array.isArray(vapiMessage?.toolCallList) ? vapiMessage.toolCallList[0]
: undefined` (route.ts lines 610-612). -/
def postToolCall (requestBody : JsVal) : JsVal :=
  match jsGet (jsGet requestBody "message") "toolCallList" with
  | JsVal.arr xs => jsIdx0 (JsVal.arr xs)
  | _ => JsVal.undef

/-- The GraphQL variables the POST handler computes from an argument source
`b` (route.ts lines 629-631): `q = (b.q ?? "").toString()`,
`limit = Math.min(Number(b.limit ?? 5), 50)`, `cursor = b.cursor ?? null`. -/
def postVars (b : JsVal) : SearchVars :=
  { query := JsVal.str (jsToString (nullish (jsGet b "q") (JsVal.str ""))),
    first := jsMathMin (jsNumber (nullish (jsGet b "limit") (JsVal.num (JsNum.int 5))))
      (JsNum.int 50),
    after := nullish (jsGet b "cursor") JsVal.null }

/-- The main body of the search POST handler from the `requestBody` value on
(route.ts lines 608-731, minus logging): VAPI envelope detection, parameter
extraction, the single `storefrontRequest` call, and plain-vs-envelope
response shaping. -/
def searchPOSTCore (requestBody : JsVal) (sf : SearchVars → JsVal) : HttpResponse :=
  let vapiToolCall := postToolCall requestBody
  let isVapi := truthy vapiToolCall
  let vapiArgs := extractArgs vapiToolCall
  let b := jsOr (if isVapi then vapiArgs else requestBody) (JsVal.obj [])
  let response := sf (postVars b)
  let products := jsGet (jsGet response "data") "products"
  if !truthy products then { status := 500, body := errObj "Failed to fetch products" }
  else
    let transformedProducts := (asArr (jsGet products "edges")).map postProductProj
    let payload := JsVal.obj
      [("products", JsVal.arr transformedProducts),
       ("pagination", JsVal.obj
          [("hasNextPage", jsGet (jsGet products "pageInfo") "hasNextPage"),
           ("endCursor", jsGet (jsGet products "pageInfo") "endCursor"),
           ("totalCount", JsVal.num (JsNum.int transformedProducts.length))])]
    if isVapi then { status := 200, body := mkEnvelope (jsGet vapiToolCall "id") payload }
    else { status := 200, body := payload }

/-- The search POST handler (route.ts lines 572-789).  A parsed JSON body or
an absent body (the `request.json()` rejection on a null body is recovered
by `request.text()` returning `""`, giving `requestBody = null`) proceeds to
the core.  A malformed non-empty body does not: `request.json()` (line 582)
consumes the body stream before its parse fails, so the fallback
`request.text()` (line 590) rejects on the disturbed stream (Fetch
semantics); the rejection lands in the handler's catch, whose own body
re-read (line 740) rejects the same way, producing the plain catch-all 500
(lines 782-788). -/
def searchPOST (body : BodyOutcome) (sf : SearchVars → JsVal) : HttpResponse :=
  match body with
  | BodyOutcome.malformed _ => { status := 500, body := errObj "Internal server error" }
  | BodyOutcome.json v => searchPOSTCore v sf
  | BodyOutcome.empty => searchPOSTCore JsVal.null sf

/-! ### Inventory check route (`part_008` GET, lines 6-282; the summary
also appears in `src/app/api/inventory/check/route.ts` lines 69-83). -/

/-- A GET request to the inventory check route: the body outcome and the
`ids` query parameter. -/
structure CheckGetRequest where
  body : BodyOutcome
  ids : Option String

/-- VAPI detection of the check GET handler (part_008 lines 14-58):
`isVapiRequest` and `toolCallId` from `requestBody?.message?.toolCallList?.[0]`. -/
def checkDetectVapi (body : BodyOutcome) : Bool × JsVal :=
  match bodyJsonOf body with
  | some v =>
    let call := jsIdx0 (jsGet (jsGet v "message") "toolCallList")
    if truthy call then (true, jsGet call "id") else (false, JsVal.undef)
  | none => (false, JsVal.undef)

/-- The error-response split used at every failure point of the check
handler: envelope when `isVapiRequest && toolCallId`, plain error body
otherwise (part_008 lines 63-88, 96-118, 134-156). -/
def checkFailResponse (d : Bool × JsVal) (status : Nat) (msg : String) : HttpResponse :=
  if d.1 && truthy d.2 then { status := status, body := mkEnvelope d.2 (errObj msg) }
  else { status := status, body := errObj msg }

/-- Node projection of the check handler (part_008 lines 158-180). -/
def checkNodeProj (node : JsVal) : JsVal :=
  JsVal.obj
    [("id", jsGet node "id"),
     ("sku", jsGet node "sku"),
     ("title", jsGet node "title"),
     ("inventoryQuantity", jsGet node "quantityAvailable"),
     ("availableForSale", jsGet node "availableForSale"),
     ("price", jsGet (jsGet node "price") "amount"),
     ("currency", jsGet (jsGet node "price") "currencyCode"),
     ("product", JsVal.obj
        [("title", jsGet (jsGet node "product") "title"),
         ("handle", jsGet (jsGet node "product") "handle")])]

/-- `inventoryData.filter(item => item.inventoryQuantity > 0).length`. -/
def inStockCount (data : List JsVal) : Nat :=
  (data.filter fun item => jsNumGt (jsGet item "inventoryQuantity") 0).length

/-- `inventoryData.filter(item => item.inventoryQuantity === 0).length`. -/
def outOfStockCount (data : List JsVal) : Nat :=
  (data.filter fun item => jsStrictEqInt (jsGet item "inventoryQuantity") 0).length

/-- `inventoryData.filter(item => item.inventoryQuantity > 0 &&
item.inventoryQuantity <= 5).length`. -/
def lowStockCount (data : List JsVal) : Nat :=
  (data.filter fun item =>
    jsNumGt (jsGet item "inventoryQuantity") 0 &&
    jsNumLe (jsGet item "inventoryQuantity") 5).length

/-- The `summary` object of the inventory check response (check/route.ts
lines 71-82, part_008 lines 186-197). -/
def checkSummary (inventoryData : List JsVal) : JsVal :=
  JsVal.obj
    [("totalVariants", JsVal.num (JsNum.int inventoryData.length)),
     ("inStock", JsVal.num (JsNum.int (inStockCount inventoryData))),
     ("outOfStock", JsVal.num (JsNum.int (outOfStockCount inventoryData))),
     ("lowStock", JsVal.num (JsNum.int (lowStockCount inventoryData)))]

/-- Split a character list at commas (model of JS `split(",")`). -/
def splitCommaAux : List Char → List Char → List String
  | [], acc => [String.mk acc.reverse]
  | c :: cs, acc =>
    if c = ',' then String.mk acc.reverse :: splitCommaAux cs []
    else splitCommaAux cs (c :: acc)

/-- Model of JS `s.split(",")`. -/
def jsSplitComma (s : String) : List String := splitCommaAux s.toList []

/-- `ids.split(",").map(id => id.trim()).filter(id => id)` (part_008 lines
91-94). -/
def splitVariantIds (s : String) : List String :=
  ((jsSplitComma s).map jsTrim).filter fun id => !id.isEmpty

/-- Main path of the inventory check GET handler (part_008 lines 60-239,
minus logging): `ids` validation, ID normalization, the single
`storefrontRequest INVENTORY_QUERY` call (`sf`), and response shaping,
given the detection outcome `d`. -/
def checkGETCore (d : Bool × JsVal) (ids : Option String)
    (sf : List String → JsVal) : HttpResponse :=
  match ids with
  | none => checkFailResponse d 400 "Variant IDs are required"
  | some s =>
    if s.isEmpty then checkFailResponse d 400 "Variant IDs are required"
    else
      let variantIds := splitVariantIds s
      if variantIds.length = 0 then
        checkFailResponse d 400 "At least one valid variant ID is required"
      else
        let formattedIds := variantIds.map formatVariantId
        let response := sf formattedIds
        let nodes := jsGet (jsGet response "data") "nodes"
        if !truthy nodes then checkFailResponse d 500 "Failed to fetch inventory data"
        else
          let inventoryData := (asArr nodes).map checkNodeProj
          let inventoryResult := JsVal.obj
            [("inventory", JsVal.arr inventoryData),
             ("summary", checkSummary inventoryData)]
          if d.1 && truthy d.2 then { status := 200, body := mkEnvelope d.2 inventoryResult }
          else { status := 200, body := inventoryResult }

/-- The inventory check GET handler (part_008 lines 6-282).  A parsed JSON
body or an absent body proceeds to the main path (on a null body the
fallback `request.text()` resolves to `""` and `requestBody` stays null).
A malformed non-empty body does not: `request.json()` (line 19) consumes the
body stream before its parse fails, so the fallback `request.text()` (line
38) rejects on the disturbed stream (Fetch semantics); the rejection lands
in the handler's outer catch (lines 240-281) before `isVapiRequest` is ever
set, producing the plain catch-all 500. -/
def checkGET (req : CheckGetRequest) (sf : List String → JsVal) : HttpResponse :=
  match req.body with
  | BodyOutcome.malformed _ => { status := 500, body := errObj "Internal server error" }
  | body => checkGETCore (checkDetectVapi body) req.ids sf

/-! ### Product-by-id route (part_002). -/

/-- Variant projection of the product route (part_002 lines 48-61). -/
def productVariantProj (variantEdge : JsVal) : JsVal :=
  let variant := jsGet variantEdge "node"
  JsVal.obj
    [("id", jsGet variant "id"),
     ("title", jsGet variant "title"),
     ("sku", jsGet variant "sku"),
     ("price", jsGet (jsGet variant "price") "amount"),
     ("compareAtPrice", jsOr (jsGet (jsGet variant "compareAtPrice") "amount") JsVal.null),
     ("inventoryQuantity", jsGet variant "inventoryQuantity"),
     ("availableForSale", jsGet variant "availableForSale"),
     ("weight", jsGet variant "weight"),
     ("weightUnit", jsGet variant "weightUnit"),
     ("options", jsGet variant "selectedOptions")]

/-- Image projection of the product route (part_002 lines 62-67). -/
def productImageProj (imageEdge : JsVal) : JsVal :=
  let image := jsGet imageEdge "node"
  JsVal.obj
    [("url", jsGet image "url"),
     ("altText", jsGet image "altText"),
     ("width", jsGet image "width"),
     ("height", jsGet image "height")]

/-- Collection projection of the product route (part_002 lines 68-74). -/
def productCollectionProj (collectionEdge : JsVal) : JsVal :=
  let collection := jsGet collectionEdge "node"
  JsVal.obj
    [("id", jsGet collection "id"),
     ("title", jsGet collection "title"),
     ("handle", jsGet collection "handle")]

/-- `transformedProduct` of the product route (part_002 lines 36-79). -/
def productProj (product : JsVal) : JsVal :=
  JsVal.obj
    [("id", jsGet product "id"),
     ("title", jsGet product "title"),
     ("handle", jsGet product "handle"),
     ("description", jsGet product "description"),
     ("productType", jsGet product "productType"),
     ("vendor", jsGet product "vendor"),
     ("priceRange", JsVal.obj
        [("min", jsGet (jsGet (jsGet product "priceRange") "minVariantPrice") "amount"),
         ("max", jsGet (jsGet (jsGet product "priceRange") "maxVariantPrice") "amount"),
         ("currency", jsGet (jsGet (jsGet product "priceRange") "minVariantPrice") "currencyCode")]),
     ("variants", JsVal.arr
        ((asArr (jsGet (jsGet product "variants") "edges")).map productVariantProj)),
     ("images", JsVal.arr
        ((asArr (jsGet (jsGet product "images") "edges")).map productImageProj)),
     ("collections", JsVal.arr
        ((asArr (jsGet (jsGet product "collections") "edges")).map productCollectionProj)),
     ("totalVariants", JsVal.num
        (JsNum.int (asArr (jsGet (jsGet product "variants") "edges")).length)),
     ("inStock", JsVal.bool
        ((asArr (jsGet (jsGet product "variants") "edges")).any fun e =>
          jsNumGt (jsGet (jsGet e "node") "inventoryQuantity") 0))]

/-- The product GET handler (part_002 lines 4-89, minus the unreachable
catch): ID validation, gid normalization, the single
`storefrontRequest PRODUCT_BY_ID_QUERY` call (`sf`), 404 on a falsy product,
otherwise the projection. -/
def productGET (productId : String) (sf : String → JsVal) : HttpResponse :=
  if productId.isEmpty then { status := 400, body := errObj "Product ID is required" }
  else
    let response := sf (formatProductId productId)
    let product := jsGet (jsGet response "data") "product"
    if !truthy product then { status := 404, body := errObj "Product not found" }
    else { status := 200, body := productProj product }

/-! ### Collections route (`src/app/api/collections/route.ts`). -/

/-- Product projection used with `include_products=true` (collections
route.ts lines 38-60): `priceRange.min` and `priceRange.max` are both taken
from `minVariantPrice.amount`. -/
def collectionsProductProj (productEdge : JsVal) : JsVal :=
  let product := jsGet productEdge "node"
  let v0 := jsGet (jsIdx0 (jsGet (jsGet product "variants") "edges")) "node"
  JsVal.obj
    [("id", jsGet product "id"),
     ("title", jsGet product "title"),
     ("handle", jsGet product "handle"),
     ("priceRange", JsVal.obj
        [("min", jsGet (jsGet (jsGet product "priceRange") "minVariantPrice") "amount"),
         ("max", jsGet (jsGet (jsGet product "priceRange") "minVariantPrice") "amount"),
         ("currency", jsGet (jsGet (jsGet product "priceRange") "minVariantPrice") "currencyCode")]),
     ("inventory",
        if truthy v0 then
          JsVal.obj
            [("quantity", jsGet v0 "inventoryQuantity"),
             ("availableForSale", jsGet v0 "availableForSale")]
        else JsVal.null),
     ("image",
        if truthy (jsGet (jsIdx0 (jsGet (jsGet product "images") "edges")) "node") then
          JsVal.obj
            [("url", jsGet (jsGet (jsIdx0 (jsGet (jsGet product "images") "edges")) "node") "url"),
             ("altText", jsGet (jsGet (jsIdx0 (jsGet (jsGet product "images") "edges")) "node") "altText")]
        else JsVal.null)]

/-- Collection projection (collections route.ts lines 26-65): base fields,
plus `products` when `include_products=true`. -/
def collectionProj (includeProducts : Bool) (edge : JsVal) : JsVal :=
  let node := jsGet edge "node"
  let base := [("id", jsGet node "id"), ("title", jsGet node "title"),
               ("handle", jsGet node "handle"), ("description", jsGet node "description")]
  if includeProducts then
    JsVal.obj (base ++
      [("products", JsVal.arr
         ((asArr (jsGet (jsGet node "products") "edges")).map collectionsProductProj))])
  else JsVal.obj base

/-- The collections GET handler (collections route.ts lines 4-83, minus the
unreachable catch): `limit` parse-and-clamp, `include_products` flag, the
single `COLLECTIONS_QUERY` call (`sf`), and the response. -/
def collectionsGET (limitParam cursorParam includeProductsParam : Option String)
    (sf : JsNum → JsVal → JsVal) : HttpResponse :=
  let limit := jsMathMin
    (parseIntStr (match limitParam with
      | some s => if s.isEmpty then "20" else s
      | none => "20"))
    (JsNum.int 50)
  let cursor : JsVal := match cursorParam with
    | some s => if s.isEmpty then JsVal.null else JsVal.str s
    | none => JsVal.null
  let includeProducts : Bool := includeProductsParam = some "true"
  let response := sf limit cursor
  let collections := jsGet (jsGet response "data") "collections"
  if !truthy collections then
    { status := 500, body := errObj "Failed to fetch collections" }
  else
    let transformedCollections :=
      (asArr (jsGet collections "edges")).map (collectionProj includeProducts)
    { status := 200,
      body := JsVal.obj
        [("collections", JsVal.arr transformedCollections),
         ("pagination", JsVal.obj
            [("hasNextPage", jsGet (jsGet collections "pageInfo") "hasNextPage"),
             ("endCursor", jsGet (jsGet collections "pageInfo") "endCursor"),
             ("totalCount", JsVal.num (JsNum.int transformedCollections.length))])]}

/-! ### Debug log buffer (`src/lib/server-logger.ts`). -/

/-- A debug log entry (server-logger.ts lines 6-12; `meta` is opaque here). -/
structure LogEntry where
  id : String
  timestamp : String
  level : String
  message : String

/-- `MAX_DEBUG_LOGS` (server-logger.ts line 15). -/
def MAX_DEBUG_LOGS : Nat := 50

/-- `MemoryTransport.log` effect on the `debugLogs` array (server-logger.ts
lines 37-40): `unshift` the new entry (newest first), then
`splice(MAX_DEBUG_LOGS)` drops everything from index 50 on. -/
def memoryTransportLog (entry : LogEntry) (debugLogs : List LogEntry) : List LogEntry :=
  let logs := entry :: debugLogs
  if logs.length > MAX_DEBUG_LOGS then logs.take MAX_DEBUG_LOGS else logs

/-! ## Shared lemmas -/

/-- Clamping with `Math.min(-, 50)` yields NaN or an integer at most 50. -/
theorem jsMathMin_int50 (n : JsNum) :
    jsMathMin n (JsNum.int 50) = JsNum.nan
      ∨ ∃ i : Int, jsMathMin n (JsNum.int 50) = JsNum.int i ∧ i ≤ 50 := by
  cases n with
  | nan => exact Or.inl rfl
  | int i => exact Or.inr ⟨min i 50, rfl, min_le_right i 50⟩

/-- A strict `=== 0` item is not counted by the `> 0` filter. -/
theorem strictEq0_not_gt (v : JsVal) :
    jsStrictEqInt v 0 = true → jsNumGt v 0 = false := by
  cases v with
  | num n =>
    cases n with
    | nan => intro h; simp [jsStrictEqInt] at h
    | int i =>
      intro h
      simp only [jsStrictEqInt, decide_eq_true_eq] at h
      subst h
      rfl
  | undef => intro h; simp [jsStrictEqInt] at h
  | null => intro h; simp [jsStrictEqInt] at h
  | bool b => intro h; simp [jsStrictEqInt] at h
  | str s => intro h; simp [jsStrictEqInt] at h
  | arr xs => intro h; simp [jsStrictEqInt] at h
  | obj fs => intro h; simp [jsStrictEqInt] at h

/-- The low-stock filter is a refinement of the in-stock filter. -/
theorem lowStockCount_le_inStockCount (data : List JsVal) :
    lowStockCount data ≤ inStockCount data := by
  induction data with
  | nil => simp [lowStockCount, inStockCount]
  | cons a l ih =>
    simp only [lowStockCount, inStockCount, List.filter_cons] at ih ⊢
    cases hg : jsNumGt (jsGet a "inventoryQuantity") 0 <;>
      cases hl : jsNumLe (jsGet a "inventoryQuantity") 5 <;>
        simp [hg, hl] <;> omega

/-- In-stock and out-of-stock filters are disjoint, so their counts sum to
at most the list length. -/
theorem inStock_add_outOfStock_le (data : List JsVal) :
    inStockCount data + outOfStockCount data ≤ data.length := by
  induction data with
  | nil => simp [inStockCount, outOfStockCount]
  | cons a l ih =>
    simp only [inStockCount, outOfStockCount, List.filter_cons, List.length_cons] at ih ⊢
    cases hq : jsStrictEqInt (jsGet a "inventoryQuantity") 0 with
    | false =>
      cases hg : jsNumGt (jsGet a "inventoryQuantity") 0 <;> simp [hg, hq] <;> omega
    | true =>
      have hg := strictEq0_not_gt _ hq
      simp [hg, hq]
      omega

/-! ## Claims -/

/-- C1 (counterexample): a caller-supplied `limit` of `-3` reaches the
downstream `first` variable as `-3` (not clamped into `[1,50]`), and a
non-numeric `limit` of `"abc"` reaches it as NaN rather than falling back to
the route default `5`. -/
theorem c1_counterexample :
    (searchGetParams ⟨BodyOutcome.empty, none, none, some "-3", none, none⟩).first
      = JsNum.int (-3)
  ∧ ¬(1 ≤ (-3 : Int))
  ∧ (searchGetParams ⟨BodyOutcome.empty, none, none, some "abc", none, none⟩).first
      = JsNum.nan
  ∧ JsNum.nan ≠ JsNum.int 5 :=
  ⟨by decide, by decide, by decide, by decide⟩

/-- C1 (amended): for every limit input, the effective `first` variable is
either NaN (non-numeric input propagates as NaN instead of falling back to
the default) or an integer at most 50; only the upper bound is enforced —
zero and negative values pass through unclamped — and a missing limit falls
back to the route default 5. -/
theorem c1_limit_clamped_above_only (req : SearchGetRequest) :
    ((searchGetParams req).first = JsNum.nan
      ∨ ∃ i : Int, (searchGetParams req).first = JsNum.int i ∧ i ≤ 50)
  ∧ (searchGetFinalize (JsVal.obj [])).first = JsNum.int 5 := by
  constructor
  · have h : (searchGetParams req).first
        = jsMathMin
            (parseIntStr (jsToString (nullish
              (jsGet (searchGetDetect req).vapiArgs "limit") (JsVal.num (JsNum.int 5)))))
            (JsNum.int 50) := rfl
    rw [h]
    exact jsMathMin_int50 _
  · decide

/-- C6: variant-ID normalization passes gid-prefixed IDs through unchanged,
prefixes bare IDs with `gid://shopify/ProductVariant/`, and is idempotent. -/
theorem c6_formatVariantId_roundtrip (id : String) :
    (strStartsWith id "gid://" = true → formatVariantId id = id)
  ∧ (strStartsWith id "gid://" = false →
      formatVariantId id = "gid://shopify/ProductVariant/" ++ id)
  ∧ formatVariantId (formatVariantId id) = formatVariantId id := by
  obtain ⟨l⟩ := id
  refine ⟨fun h => ?_, fun h => ?_, ?_⟩
  · simp [formatVariantId, h]
  · simp [formatVariantId, h]
  · cases h : strStartsWith ⟨l⟩ "gid://" with
    | true => simp [formatVariantId, h]
    | false =>
      have h3 : strStartsWith ("gid://shopify/ProductVariant/" ++ String.mk l) "gid://"
          = true := rfl
      simp [formatVariantId, h, h3]

/-- C6 (witness): concrete round trips at `gid://shopify/ProductVariant/123`
and at the bare ID `123`. -/
theorem c6_witness :
    formatVariantId "gid://shopify/ProductVariant/123" = "gid://shopify/ProductVariant/123"
  ∧ formatVariantId "123" = "gid://shopify/ProductVariant/" ++ "123"
  ∧ formatVariantId (formatVariantId "123") = formatVariantId "123" :=
  ⟨(c6_formatVariantId_roundtrip _).1 rfl,
   (c6_formatVariantId_roundtrip _).2.1 rfl,
   (c6_formatVariantId_roundtrip "123").2.2⟩

/-- C7: when the upstream response carries a null product, the product GET
handler answers 404 with exactly the `Product not found` error body. -/
theorem c7_product_not_found (pid : String) (sf : String → JsVal)
    (hpid : pid.isEmpty = false)
    (hnull : jsGet (jsGet (sf (formatProductId pid)) "data") "product" = JsVal.null) :
    productGET pid sf = { status := 404, body := errObj "Product not found" } := by
  unfold productGET
  simp [hpid, hnull, truthy]

/-- C7 (witness): `GET /products/doesnotexist` with an upstream null product
gives 404 `Product not found`. -/
theorem c7_witness :
    productGET "doesnotexist"
        (fun _ => JsVal.obj [("data", JsVal.obj [("product", JsVal.null)])])
      = { status := 404, body := errObj "Product not found" } :=
  c7_product_not_found "doesnotexist" _ rfl rfl

/-- C8: after every append the debug-log buffer holds at most
`MAX_DEBUG_LOGS = 50` entries, and the entries removed are exactly a tail of
the previous (newest-first) buffer, i.e. the oldest ones. -/
theorem c8_debug_log_bounded (e : LogEntry) (logs : List LogEntry) :
    (memoryTransportLog e logs).length ≤ MAX_DEBUG_LOGS
  ∧ memoryTransportLog e logs ++ (e :: logs).drop MAX_DEBUG_LOGS = e :: logs
  ∧ (e :: logs).drop MAX_DEBUG_LOGS = logs.drop (MAX_DEBUG_LOGS - 1)
  ∧ logs.take (MAX_DEBUG_LOGS - 1) ++ logs.drop (MAX_DEBUG_LOGS - 1) = logs := by
  refine ⟨?_, ?_, ?_, List.take_append_drop _ _⟩
  · unfold memoryTransportLog
    simp only [List.length_cons]
    by_cases h : MAX_DEBUG_LOGS < logs.length + 1
    · simp [h, List.length_take]
    · simp only [h, if_false, List.length_cons]
      omega
  · unfold memoryTransportLog
    simp only [List.length_cons]
    by_cases h : MAX_DEBUG_LOGS < logs.length + 1
    · simp only [h, if_true]
      exact List.take_append_drop _ _
    · simp only [h, if_false]
      have hd : (e :: logs).drop MAX_DEBUG_LOGS = [] :=
        List.drop_eq_nil_of_le (by simp only [List.length_cons]; omega)
      rw [hd, List.append_nil]
  · show (e :: logs).drop 50 = logs.drop 49
    exact List.drop_succ_cons

/-- Truthiness of `undefined`. -/
theorem truthy_undef : truthy JsVal.undef = false := rfl

/-- The first detection step yields a truthy `toolCallId` exactly when the
body envelope and its `id` are both truthy. -/
theorem truthy_body_step (bc : JsVal) :
    truthy (if truthy bc then jsGet bc "id" else JsVal.undef)
      = (truthy bc && truthy (jsGet bc "id")) := by
  cases h : truthy bc <;> simp [h, truthy_undef]

/-- C3: the search GET normalizer tries shapes in a fixed order — JSON-body
envelope, then the `message` query-parameter envelope, then plain
query-parameter fields — the first shape yielding a (truthy) toolCallId
wins, and when no shape yields a query, limit or cursor the request is
processed with empty query, default limit 5 and null cursor. -/
theorem c3_detection_order (req : SearchGetRequest) :
    ((truthy (bodyToolCall req.body) && truthy (jsGet (bodyToolCall req.body) "id")) = true →
      searchGetDetect req =
        { toolCallId := jsGet (bodyToolCall req.body) "id",
          vapiArgs := extractArgs (bodyToolCall req.body) })
  ∧ ((truthy (bodyToolCall req.body) && truthy (jsGet (bodyToolCall req.body) "id")) = false →
     (truthy (messageToolCall req.message) &&
        truthy (jsGet (messageToolCall req.message) "id")) = true →
      searchGetDetect req =
        { toolCallId := jsGet (messageToolCall req.message) "id",
          vapiArgs := extractArgs (messageToolCall req.message) })
  ∧ ((truthy (bodyToolCall req.body) && truthy (jsGet (bodyToolCall req.body) "id")) = false →
     (truthy (messageToolCall req.message) &&
        truthy (jsGet (messageToolCall req.message) "id")) = false →
     (truthy (plainQuery req) || truthy (optStrVal req.limit) ||
        truthy (optStrVal req.cursor)) = true →
      searchGetDetect req =
        { toolCallId := JsVal.str "query-params-fallback", vapiArgs := plainArgs req })
  ∧ (truthy (bodyToolCall req.body) = false →
     truthy (messageToolCall req.message) = false →
     (truthy (plainQuery req) || truthy (optStrVal req.limit) ||
        truthy (optStrVal req.cursor)) = false →
      searchGetDetect req = { toolCallId := JsVal.undef, vapiArgs := JsVal.obj [] }
      ∧ searchGetParams req
          = { query := JsVal.str "", first := JsNum.int 5, after := JsVal.null }) := by
  refine ⟨fun h => ?_, fun h hm => ?_, fun h hm hp => ?_, fun h1 h2 h3 => ?_⟩
  · rw [Bool.and_eq_true] at h
    obtain ⟨hb, hi⟩ := h
    simp [searchGetDetect, hb, hi]
  · rw [Bool.and_eq_true] at hm
    obtain ⟨hmc, hmi⟩ := hm
    have h0 := truthy_body_step (bodyToolCall req.body)
    rw [h] at h0
    simp [searchGetDetect, h0, hmc, hmi]
  · have h0 := truthy_body_step (bodyToolCall req.body)
    rw [h] at h0
    cases hmc : truthy (messageToolCall req.message) with
    | false => simp [searchGetDetect, h0, hmc, hp]
    | true =>
      have hmi : truthy (jsGet (messageToolCall req.message) "id") = false := by
        rw [hmc] at hm
        simpa using hm
      simp [searchGetDetect, h0, hmc, hmi, hp]
  · have hd : searchGetDetect req = { toolCallId := JsVal.undef, vapiArgs := JsVal.obj [] } := by
      simp [searchGetDetect, h1, h2, h3, truthy_undef]
    refine ⟨hd, ?_⟩
    show searchGetFinalize (searchGetDetect req).vapiArgs = _
    rw [hd]
    rfl

/-- Witness request: all three shapes supplied at once. -/
def c3reqA : SearchGetRequest :=
  ⟨BodyOutcome.json (JsVal.obj [("message", JsVal.obj [("toolCallList",
      JsVal.arr [JsVal.obj [("id", JsVal.str "call_1"),
        ("arguments", JsVal.obj [("q", JsVal.str "red")])]])])]),
   some "zz", none, some "9", none,
   some (some (JsVal.obj [("toolCallList",
      JsVal.arr [JsVal.obj [("id", JsVal.str "call_2")]])]))⟩

/-- Witness request: `message` envelope plus plain parameters, no body. -/
def c3reqB : SearchGetRequest :=
  ⟨BodyOutcome.empty, some "zz", none, some "9", none,
   some (some (JsVal.obj [("toolCallList",
      JsVal.arr [JsVal.obj [("id", JsVal.str "call_2"),
        ("arguments", JsVal.obj [("q", JsVal.str "blue")])]])]))⟩

/-- Witness request: plain query parameters only. -/
def c3reqC : SearchGetRequest :=
  ⟨BodyOutcome.empty, some "shoe", none, some "3", none, none⟩

/-- Witness request: nothing recognizable. -/
def c3reqD : SearchGetRequest :=
  ⟨BodyOutcome.empty, none, none, none, none, none⟩

/-- C3 (witness): the body envelope wins over a simultaneously supplied
`message` parameter envelope and plain parameters; the `message` envelope
wins over plain parameters; plain parameters alone use the fallback; an
empty request resolves to empty query, limit 5, null cursor. -/
theorem c3_witness :
    searchGetDetect c3reqA
      = { toolCallId := JsVal.str "call_1", vapiArgs := JsVal.obj [("q", JsVal.str "red")] }
  ∧ searchGetDetect c3reqB
      = { toolCallId := JsVal.str "call_2", vapiArgs := JsVal.obj [("q", JsVal.str "blue")] }
  ∧ searchGetDetect c3reqC
      = { toolCallId := JsVal.str "query-params-fallback",
          vapiArgs := JsVal.obj [("q", JsVal.str "shoe"),
            ("limit", JsVal.num (JsNum.int 3)), ("cursor", JsVal.undef)] }
  ∧ searchGetDetect c3reqD
      = { toolCallId := JsVal.undef, vapiArgs := JsVal.obj [] }
  ∧ searchGetParams c3reqD
      = { query := JsVal.str "", first := JsNum.int 5, after := JsVal.null } :=
  ⟨(c3_detection_order c3reqA).1 rfl,
   (c3_detection_order c3reqB).2.1 rfl rfl,
   (c3_detection_order c3reqC).2.2.1 rfl rfl rfl,
   ((c3_detection_order c3reqD).2.2.2 rfl rfl rfl).1,
   ((c3_detection_order c3reqD).2.2.2 rfl rfl rfl).2⟩

/-- Witness upstream for the malformed-body counterexample: responses carry
an (empty) nodes array. -/
def c4sfInv : List String → JsVal := fun _ =>
  JsVal.obj [("data", JsVal.obj [("nodes", JsVal.arr [])])]

/-- C4 (counterexample): a malformed non-empty body sent to the inventory
check handler is not treated as absent and does not fall through — the
fallback body read rejects on the consumed stream and the catch-all answers
500 `Internal server error` — while the same request with an absent body
falls through to the query parameters and produces the normal 200 response. -/
theorem c4_counterexample :
    checkGET ⟨BodyOutcome.malformed "not json", some "123"⟩ c4sfInv
      = { status := 500, body := errObj "Internal server error" }
  ∧ checkGET ⟨BodyOutcome.empty, some "123"⟩ c4sfInv
      = { status := 200,
          body := JsVal.obj [("inventory", JsVal.arr []), ("summary", checkSummary [])] }
  ∧ (500 : Nat) ≠ 200 :=
  ⟨rfl, rfl, by decide⟩

/-- C4 (amended): the search GET normalizer reads the body once as text, so
a malformed body is treated exactly like an absent body, falls through to
the query-parameter/default path, and on upstream success the request still
completes with a normal 200 response — no JSON parse error reaches the
caller.  The inventory check and search POST handlers, whose JSON-parse
fallback re-reads the already-consumed body, instead answer malformed
non-empty bodies from the generic catch-all with 500 `Internal server
error`: still no JSON parse error surfaced, but no fall-through either. -/
theorem c4_malformed_body_recovered (raw : String) (req : SearchGetRequest)
    (ids : Option String) (sf : SearchVars → JsVal) (sfInv : List String → JsVal) :
    searchGET { req with body := BodyOutcome.malformed raw } sf
      = searchGET { req with body := BodyOutcome.empty } sf
  ∧ (truthy (jsGet (jsGet (sf (searchGetParams { req with body := BodyOutcome.empty }))
        "data") "products") = true →
      (searchGET { req with body := BodyOutcome.malformed raw } sf).status = 200)
  ∧ checkGET ⟨BodyOutcome.malformed raw, ids⟩ sfInv
      = { status := 500, body := errObj "Internal server error" }
  ∧ searchPOST (BodyOutcome.malformed raw) sf
      = { status := 500, body := errObj "Internal server error" } := by
  refine ⟨rfl, fun h => ?_, rfl, rfl⟩
  show (searchGET { req with body := BodyOutcome.empty } sf).status = 200
  simp only [searchGetParams] at h
  simp only [searchGET]
  simp [h]

/-- Witness request for the malformed-body claim. -/
def c4req : SearchGetRequest :=
  ⟨BodyOutcome.empty, some "shoe", none, none, none, none⟩

/-- Witness upstream: a response carrying a products object. -/
def c4sf : SearchVars → JsVal := fun _ =>
  JsVal.obj [("data", JsVal.obj [("products", JsVal.obj
    [("edges", JsVal.arr []),
     ("pageInfo", JsVal.obj [("hasNextPage", JsVal.bool false), ("endCursor", JsVal.null)])])])]

/-- C4 (witness): a concrete malformed body behaves like an absent body on
the search GET handler and completes with 200, while the check and POST
handlers answer it with the catch-all 500. -/
theorem c4_witness :
    searchGET { c4req with body := BodyOutcome.malformed "not json" } c4sf
      = searchGET { c4req with body := BodyOutcome.empty } c4sf
  ∧ (searchGET { c4req with body := BodyOutcome.malformed "not json" } c4sf).status = 200
  ∧ checkGET ⟨BodyOutcome.malformed "not json", some "123"⟩ (fun _ => JsVal.null)
      = { status := 500, body := errObj "Internal server error" }
  ∧ searchPOST (BodyOutcome.malformed "not json") c4sf
      = { status := 500, body := errObj "Internal server error" } :=
  ⟨(c4_malformed_body_recovered "not json" c4req (some "123") c4sf (fun _ => JsVal.null)).1,
   (c4_malformed_body_recovered "not json" c4req (some "123") c4sf (fun _ => JsVal.null)).2.1 rfl,
   (c4_malformed_body_recovered "not json" c4req (some "123") c4sf (fun _ => JsVal.null)).2.2.1,
   (c4_malformed_body_recovered "not json" c4req (some "123") c4sf (fun _ => JsVal.null)).2.2.2⟩

/-- C2 (counterexample): a tool-call-convention request (toolCallId
`call_9` extracted from the body) whose `ids` parameter is missing — a
business-logic failure detected after parsing — is answered with HTTP 400,
not 200, the failure being wrapped in the envelope. -/
theorem c2_counterexample :
    checkGET
        ⟨BodyOutcome.json (JsVal.obj
           [("message", JsVal.obj
              [("toolCallList", JsVal.arr [JsVal.obj [("id", JsVal.str "call_9")]])])]),
         none⟩
        (fun _ => JsVal.null)
      = { status := 400,
          body := mkEnvelope (JsVal.str "call_9") (errObj "Variant IDs are required") }
  ∧ (400 : Nat) ≠ 200 :=
  ⟨rfl, by decide⟩

/-- C2 (amended): on a detected tool-call request, the handler's behavior is
exactly: missing `ids` → 400 with the enveloped `Variant IDs are required`
error; empty `ids` → the same 400; `ids` with no valid entry → 400 with the
enveloped `At least one valid variant ID is required` error; upstream
failure → 500 with the enveloped `Failed to fetch inventory data` error; and
only the success path answers 200, with the result in the envelope.  So
business-logic failures are wrapped in the
`\x7bresults:[\x7btoolCallId, result\x7d]\x7d` envelope but carry their
non-200 transport status (400 for validation, 500 for upstream failure). -/
theorem c2_envelope_with_failure_status (req : CheckGetRequest)
    (sf : List String → JsVal) (tcid : JsVal)
    (hdet : checkDetectVapi req.body = (true, tcid)) (htc : truthy tcid = true) :
    (req.ids = none →
      checkGET req sf
        = { status := 400,
            body := mkEnvelope tcid (errObj "Variant IDs are required") })
  ∧ (∀ s, req.ids = some s → s.isEmpty = true →
      checkGET req sf
        = { status := 400,
            body := mkEnvelope tcid (errObj "Variant IDs are required") })
  ∧ (∀ s, req.ids = some s → s.isEmpty = false → (splitVariantIds s).length = 0 →
      checkGET req sf
        = { status := 400,
            body := mkEnvelope tcid (errObj "At least one valid variant ID is required") })
  ∧ (∀ s, req.ids = some s → s.isEmpty = false → (splitVariantIds s).length ≠ 0 →
      truthy (jsGet (jsGet (sf ((splitVariantIds s).map formatVariantId)) "data") "nodes")
        = false →
      checkGET req sf
        = { status := 500,
            body := mkEnvelope tcid (errObj "Failed to fetch inventory data") })
  ∧ (∀ s, req.ids = some s → s.isEmpty = false → (splitVariantIds s).length ≠ 0 →
      truthy (jsGet (jsGet (sf ((splitVariantIds s).map formatVariantId)) "data") "nodes")
        = true →
      ∃ r, checkGET req sf = { status := 200, body := mkEnvelope tcid r }) := by
  have hfail : ∀ st m, checkFailResponse (true, tcid) st m
      = { status := st, body := mkEnvelope tcid (errObj m) } := by
    intro st m
    simp [checkFailResponse, htc]
  obtain ⟨body, ids⟩ := req
  cases body with
  | malformed raw => simp [checkDetectVapi, bodyJsonOf] at hdet
  | empty => simp [checkDetectVapi, bodyJsonOf] at hdet
  | json v =>
    have hred : checkGET ⟨BodyOutcome.json v, ids⟩ sf = checkGETCore (true, tcid) ids sf := by
      show checkGETCore (checkDetectVapi (BodyOutcome.json v)) ids sf = _
      rw [hdet]
    refine ⟨fun hids => ?_, fun s hids hemp => ?_, fun s hids hemp hz => ?_,
            fun s hids hemp hz hn => ?_, fun s hids hemp hz hn => ?_⟩
    · subst hids
      rw [hred]
      exact hfail 400 _
    · subst hids
      rw [hred]
      simp only [checkGETCore, hemp, if_true]
      exact hfail 400 _
    · subst hids
      rw [hred]
      simp only [checkGETCore, hemp, Bool.false_eq_true, if_false, hz, if_true]
      exact hfail 400 _
    · subst hids
      rw [hred]
      simp only [checkGETCore, hemp, Bool.false_eq_true, if_false, hz, hn]
      simp only [Bool.not_false, if_true]
      exact hfail 500 _
    · subst hids
      refine ⟨JsVal.obj
        [("inventory", JsVal.arr ((asArr (jsGet (jsGet
            (sf ((splitVariantIds s).map formatVariantId)) "data") "nodes")).map
            checkNodeProj)),
         ("summary", checkSummary ((asArr (jsGet (jsGet
            (sf ((splitVariantIds s).map formatVariantId)) "data") "nodes")).map
            checkNodeProj))], ?_⟩
      rw [hred]
      simp only [checkGETCore, hemp, Bool.false_eq_true, if_false, hz, hn]
      simp [htc]

/-- Witness upstream whose responses carry no nodes (upstream failure). -/
def c2sfFail : List String → JsVal := fun _ => JsVal.null

/-- Witness upstream whose responses carry nodes (upstream success). -/
def c2sfOk : List String → JsVal := fun _ =>
  JsVal.obj [("data", JsVal.obj [("nodes", JsVal.arr [])])]

/-- Witness VAPI body carrying toolCallId `call_1`. -/
def c2body : BodyOutcome :=
  BodyOutcome.json (JsVal.obj
    [("message", JsVal.obj
       [("toolCallList", JsVal.arr [JsVal.obj [("id", JsVal.str "call_1")]])])])

/-- C2 (witness): at concrete tool-call requests, missing ids gives the
enveloped 400, ids `","` (no valid entry) the enveloped 400, an upstream
failure the enveloped 500, and an upstream success the enveloped 200. -/
theorem c2_witness :
    checkGET ⟨c2body, none⟩ c2sfFail
      = { status := 400,
          body := mkEnvelope (JsVal.str "call_1") (errObj "Variant IDs are required") }
  ∧ checkGET ⟨c2body, some ","⟩ c2sfFail
      = { status := 400,
          body := mkEnvelope (JsVal.str "call_1")
            (errObj "At least one valid variant ID is required") }
  ∧ checkGET ⟨c2body, some "123"⟩ c2sfFail
      = { status := 500,
          body := mkEnvelope (JsVal.str "call_1") (errObj "Failed to fetch inventory data") }
  ∧ ∃ r, checkGET ⟨c2body, some "123"⟩ c2sfOk
      = { status := 200, body := mkEnvelope (JsVal.str "call_1") r } :=
  ⟨(c2_envelope_with_failure_status ⟨c2body, none⟩ c2sfFail (JsVal.str "call_1")
      rfl rfl).1 rfl,
   (c2_envelope_with_failure_status ⟨c2body, some ","⟩ c2sfFail (JsVal.str "call_1")
      rfl rfl).2.2.1 "," rfl rfl rfl,
   (c2_envelope_with_failure_status ⟨c2body, some "123"⟩ c2sfFail (JsVal.str "call_1")
      rfl rfl).2.2.2.1 "123" rfl rfl (by decide) rfl,
   (c2_envelope_with_failure_status ⟨c2body, some "123"⟩ c2sfOk (JsVal.str "call_1")
      rfl rfl).2.2.2.2 "123" rfl rfl (by decide) rfl⟩

/-- Extractor fallback is never falsy: its last alternative is `\x7b\x7d`. -/
theorem truthy_extractArgs (tc : JsVal) : truthy (extractArgs tc) = true := by
  unfold extractArgs
  have hobj : truthy (JsVal.obj []) = true := rfl
  cases h1 : truthy (jsGet tc "arguments") <;>
    cases h2 : truthy (jsGet (jsGet tc "function") "parameters") <;>
      simp [jsOr, h1, h2, hobj]

/-- `x || \x7b\x7d` keeps a truthy `x`. -/
theorem jsOr_obj_of_truthy (x : JsVal) (h : truthy x = true) :
    jsOr x (JsVal.obj []) = x := by
  simp [jsOr, h]

/-- C5: the POST search handler uses only `toolCallList[0]` — the response
is identical whatever the later elements are — and on upstream success the
response is the envelope keyed by the first element's id, with the search
arguments drawn from that element's `arguments` (or `function.parameters`). -/
theorem c5_first_tool_call_wins (b c : JsVal) (cs : List JsVal) (sf : SearchVars → JsVal)
    (hl : jsGet (jsGet b "message") "toolCallList" = JsVal.arr (c :: cs))
    (hc : truthy c = true) :
    searchPOST (BodyOutcome.json b) sf
      = searchPOST (BodyOutcome.json (JsVal.obj [("message",
          JsVal.obj [("toolCallList", JsVal.arr [c])])])) sf
  ∧ (truthy (jsGet (jsGet (sf (postVars (extractArgs c))) "data") "products") = true →
     ∃ payload, searchPOST (BodyOutcome.json b) sf
        = { status := 200, body := mkEnvelope (jsGet c "id") payload }) := by
  have htc : postToolCall b = c := by
    simp [postToolCall, hl, jsIdx0]
  have htc2 : postToolCall (JsVal.obj [("message",
      JsVal.obj [("toolCallList", JsVal.arr [c])])]) = c := by
    simp [postToolCall, jsGet, lookupField, jsIdx0]
  have hb : jsOr (extractArgs c) (JsVal.obj []) = extractArgs c :=
    jsOr_obj_of_truthy _ (truthy_extractArgs c)
  constructor
  · simp only [searchPOST, searchPOSTCore, htc, htc2, hc, if_true]
  · intro h
    refine ⟨JsVal.obj
      [("products", JsVal.arr ((asArr (jsGet (jsGet (jsGet
          (sf (postVars (extractArgs c))) "data") "products") "edges")).map postProductProj)),
       ("pagination", JsVal.obj
          [("hasNextPage", jsGet (jsGet (jsGet (jsGet (sf (postVars (extractArgs c)))
              "data") "products") "pageInfo") "hasNextPage"),
           ("endCursor", jsGet (jsGet (jsGet (jsGet (sf (postVars (extractArgs c)))
              "data") "products") "pageInfo") "endCursor"),
           ("totalCount", JsVal.num (JsNum.int ((asArr (jsGet (jsGet (jsGet
              (sf (postVars (extractArgs c))) "data") "products") "edges")).map
              postProductProj).length))])], ?_⟩
    simp only [searchPOST, searchPOSTCore, htc, hc, if_true, hb]
    simp [h]

/-- Witness: the first tool call of the POST body. -/
def c5first : JsVal :=
  JsVal.obj [("id", JsVal.str "call_1"),
    ("arguments", JsVal.obj [("q", JsVal.str "red shirt"), ("limit", JsVal.num (JsNum.int 3))])]

/-- Witness: a second tool call that must be ignored. -/
def c5second : JsVal :=
  JsVal.obj [("id", JsVal.str "call_2"),
    ("arguments", JsVal.obj [("q", JsVal.str "blue hat")])]

/-- Witness POST body with a two-element `toolCallList`. -/
def c5body : JsVal :=
  JsVal.obj [("message", JsVal.obj [("toolCallList", JsVal.arr [c5first, c5second])])]

/-- Witness upstream for the POST claim. -/
def c5sf : SearchVars → JsVal := fun _ =>
  JsVal.obj [("data", JsVal.obj [("products", JsVal.obj
    [("edges", JsVal.arr []),
     ("pageInfo", JsVal.obj [("hasNextPage", JsVal.bool false), ("endCursor", JsVal.null)])])])]

/-- C5 (witness): with the two-element body, the response equals the
one-element response and is the 200 envelope keyed by `call_1`. -/
theorem c5_witness :
    searchPOST (BodyOutcome.json c5body) c5sf
      = searchPOST (BodyOutcome.json (JsVal.obj [("message",
          JsVal.obj [("toolCallList", JsVal.arr [c5first])])])) c5sf
  ∧ ∃ payload, searchPOST (BodyOutcome.json c5body) c5sf
      = { status := 200, body := mkEnvelope (JsVal.str "call_1") payload } :=
  ⟨(c5_first_tool_call_wins c5body c5first [c5second] c5sf rfl rfl).1,
   (c5_first_tool_call_wins c5body c5first [c5second] c5sf rfl rfl).2 rfl⟩

/-- The collections GET response body is either the upstream-failure error
object or the collections/pagination object built from the projections. -/
theorem collectionsGET_body_cases (lp cp : Option String) (sf : JsNum → JsVal → JsVal) :
    (collectionsGET lp cp (some "true") sf).body = errObj "Failed to fetch collections"
  ∨ ∃ (edges : List JsVal) (pg : JsVal), (collectionsGET lp cp (some "true") sf).body
      = JsVal.obj [("collections", JsVal.arr (edges.map (collectionProj true))),
                   ("pagination", pg)] := by
  simp only [collectionsGET]
  split
  · exact Or.inl rfl
  · exact Or.inr ⟨_, _, rfl⟩

/-- C10: in a collections response with `include_products=true`, every
product of every collection is a `collectionsProductProj` projection, whose
`priceRange.max` equals `priceRange.min`, both taken from the upstream
`minVariantPrice.amount` — the upstream maximum variant price never appears. -/
theorem c10_collections_price_range (lp cp : Option String) (sf : JsNum → JsVal → JsVal)
    (cols ps : List JsVal) (c p : JsVal)
    (hcols : jsGet (collectionsGET lp cp (some "true") sf).body "collections" = JsVal.arr cols)
    (hc : c ∈ cols) (hps : jsGet c "products" = JsVal.arr ps) (hp : p ∈ ps) :
    ∃ productEdge, p = collectionsProductProj productEdge
      ∧ jsGet (jsGet p "priceRange") "max" = jsGet (jsGet p "priceRange") "min"
      ∧ jsGet (jsGet p "priceRange") "min"
          = jsGet (jsGet (jsGet (jsGet productEdge "node") "priceRange") "minVariantPrice")
              "amount" := by
  rcases collectionsGET_body_cases lp cp sf with hbody | ⟨edges, pg, hbody⟩
  · rw [hbody] at hcols
    rw [show jsGet (errObj "Failed to fetch collections") "collections" = JsVal.undef
      from rfl] at hcols
    exact JsVal.noConfusion hcols
  · rw [hbody] at hcols
    rw [show ∀ t pg2, jsGet (JsVal.obj [("collections", t), ("pagination", pg2)])
        "collections" = t from fun _ _ => rfl] at hcols
    injection hcols with hcols
    rw [← hcols] at hc
    obtain ⟨e, _, hce⟩ := List.mem_map.mp hc
    rw [← hce] at hps
    rw [show jsGet (collectionProj true e) "products"
        = JsVal.arr ((asArr (jsGet (jsGet (jsGet e "node") "products") "edges")).map
            collectionsProductProj) from rfl] at hps
    injection hps with hps
    rw [← hps] at hp
    obtain ⟨pe, _, hppe⟩ := List.mem_map.mp hp
    subst hppe
    exact ⟨pe, rfl, rfl, rfl⟩

/-- Witness upstream product edge with distinct min and max variant prices. -/
def c10pedge : JsVal :=
  JsVal.obj [("node", JsVal.obj
    [("id", JsVal.str "p1"), ("title", JsVal.str "P"), ("handle", JsVal.str "p"),
     ("priceRange", JsVal.obj
        [("minVariantPrice", JsVal.obj
           [("amount", JsVal.str "10.0"), ("currencyCode", JsVal.str "USD")]),
         ("maxVariantPrice", JsVal.obj [("amount", JsVal.str "99.0")])]),
     ("variants", JsVal.obj [("edges", JsVal.arr [])]),
     ("images", JsVal.obj [("edges", JsVal.arr [])])])]

/-- Witness upstream collection edge containing one product. -/
def c10edge : JsVal :=
  JsVal.obj [("node", JsVal.obj
    [("id", JsVal.str "c1"), ("title", JsVal.str "C"), ("handle", JsVal.str "c"),
     ("description", JsVal.str "d"),
     ("products", JsVal.obj [("edges", JsVal.arr [c10pedge])])])]

/-- Witness upstream for the collections claim. -/
def c10sf : JsNum → JsVal → JsVal := fun _ _ =>
  JsVal.obj [("data", JsVal.obj
    [("collections", JsVal.obj
       [("edges", JsVal.arr [c10edge]),
        ("pageInfo", JsVal.obj [("hasNextPage", JsVal.bool false), ("endCursor", JsVal.null)])])])]

/-- C10 (witness): the concrete projected product has `max = min`, both from
the upstream `minVariantPrice.amount` (`"10.0"`, not the upstream max `"99.0"`). -/
theorem c10_witness :
    ∃ productEdge,
      collectionsProductProj c10pedge = collectionsProductProj productEdge
      ∧ jsGet (jsGet (collectionsProductProj c10pedge) "priceRange") "max"
          = jsGet (jsGet (collectionsProductProj c10pedge) "priceRange") "min"
      ∧ jsGet (jsGet (collectionsProductProj c10pedge) "priceRange") "min"
          = jsGet (jsGet (jsGet (jsGet productEdge "node") "priceRange") "minVariantPrice")
              "amount" :=
  c10_collections_price_range none none c10sf
    [collectionProj true c10edge] [collectionsProductProj c10pedge]
    (collectionProj true c10edge) (collectionsProductProj c10pedge)
    rfl (List.mem_singleton.mpr rfl) rfl (List.mem_singleton.mpr rfl)

/-- C9: the inventory summary satisfies `totalVariants` = length of the
inventory array, `lowStock ≤ inStock`, and `inStock + outOfStock ≤
totalVariants`, with the in/out/low classification given by the filters. -/
theorem c9_summary_invariants (data : List JsVal) :
    jsGet (checkSummary data) "totalVariants" = JsVal.num (JsNum.int data.length)
  ∧ jsGet (checkSummary data) "inStock" = JsVal.num (JsNum.int (inStockCount data))
  ∧ jsGet (checkSummary data) "outOfStock" = JsVal.num (JsNum.int (outOfStockCount data))
  ∧ jsGet (checkSummary data) "lowStock" = JsVal.num (JsNum.int (lowStockCount data))
  ∧ lowStockCount data ≤ inStockCount data
  ∧ inStockCount data + outOfStockCount data ≤ data.length :=
  ⟨rfl, rfl, rfl, rfl, lowStockCount_le_inStockCount data, inStock_add_outOfStock_le data⟩
